import Mathlib

/-!
Verification of the Deluthium market-maker WebSocket connector
(`src/docker/hummingbot-mm/src/connector.py`) against its specification.

The development shallow-embeds the connector's data model and its pure /
effect-explicit operations:

* Python `decimal.Decimal` values (as used by the connector under the default
  context: precision 28, `ROUND_HALF_EVEN`) are modelled by `Dec`, a pair of an
  integer coefficient and a power-of-ten exponent, together with the
  multiplication, subtraction, true-division, comparison and `int()`
  truncation the connector performs.  Exponent-range limits (`Emax` etc.) of
  the Python context are far beyond the magnitudes this code produces and are
  not modelled.
* WebSocket sends are modelled as frames appended to an output list (a send
  that raises is a transport-fatal event that tears the session down and is
  outside the per-request handlers modelled here).
* The external collaborators — the price oracle callback and the
  `eth_account` EIP-712 signer — are parameters; a `none` result models the
  Python call raising an exception.
* Wall-clock timestamps attached to outbound frames are omitted from the
  frame model; no modelled behaviour depends on them.
-/

/-! ## Python `Decimal` model (context: prec = 28, ROUND_HALF_EVEN) -/

/-- A finite Python `Decimal`: value `c * 10 ^ e`.  The representation is not
normalised, mirroring `decimal.Decimal`, whose coefficient may carry trailing
zeros. -/
structure Dec where
  c : Int
  e : Int
  deriving DecidableEq, Repr

/-- Number of decimal digits of `n`, with an explicit fuel argument
(`numDigits` supplies fuel `n + 1`, always sufficient). -/
def numDigitsAux : Nat → Nat → Nat
  | 0, _ => 0
  | f + 1, n => if n < 10 then 1 else 1 + numDigitsAux f (n / 10)

/-- Number of decimal digits of `n` (`numDigits 0 = 1`, as Python's
`len(str(0))`). -/
def numDigits (n : Nat) : Nat := numDigitsAux (n + 1) n

/-- How many digits of `n` exceed the 28-digit context precision, with fuel
(`excessDigits` supplies fuel `n`, always sufficient since the digit count of
`n` is at most `n`). -/
def excessDigitsAux : Nat → Nat → Nat
  | 0, _ => 0
  | f + 1, n => if n < 10 ^ 28 then 0 else 1 + excessDigitsAux f (n / 10)

/-- Number of digits of `n` beyond the 28 kept by the context. -/
def excessDigits (n : Nat) : Nat := excessDigitsAux n n

/-- Divide `n` by `d` rounding half to even (the context rounding mode). -/
def rndHalfEven (n d : Nat) : Nat :=
  let q := n / d
  let r := n % d
  if 2 * r < d then q
  else if 2 * r > d then q + 1
  else if q % 2 = 0 then q else q + 1

/-- Python `Decimal._fix`: round a raw result to the 28-digit context precision,
half to even.  (When rounding up overflows to a 29-digit power of ten the
coefficient keeps a trailing zero; the value is the same and all downstream
operations are value-stable in that representation.) -/
def round28 (x : Dec) : Dec :=
  let n := x.c.natAbs
  let d := excessDigits n
  if d = 0 then x
  else ⟨x.c.sign * (rndHalfEven n (10 ^ d) : Nat), x.e + d⟩

/-- Rational value of a `Dec`. -/
def Dec.val (x : Dec) : ℚ := (x.c : ℚ) * (10 : ℚ) ^ x.e

/-- Python `Decimal.__mul__`: exact product, then context rounding. -/
def decMul (a b : Dec) : Dec := round28 ⟨a.c * b.c, a.e + b.e⟩

/-- Python `Decimal.__sub__`: exact difference on aligned exponents, then context
rounding. -/
def decSub (a b : Dec) : Dec :=
  let m := min a.e b.e
  round28 ⟨a.c * 10 ^ (a.e - m).toNat - b.c * 10 ^ (b.e - m).toNat, m⟩

/-- Python `Decimal.__lt__`: exact value comparison. -/
def decLt (a b : Dec) : Bool :=
  let m := min a.e b.e
  decide (a.c * 10 ^ (a.e - m).toNat < b.c * 10 ^ (b.e - m).toNat)

/-- Python `int(Decimal)`: truncation toward zero. -/
def decToInt (x : Dec) : Int :=
  if 0 ≤ x.e then x.c * 10 ^ x.e.toNat else Int.tdiv x.c (10 ^ (-x.e).toNat)

/-- The trailing-zero stripping loop of `Decimal.__truediv__` for exact
quotients (`while exp < ideal_exp and coeff % 10 == 0`); the fuel is the
number of exponent steps up to the ideal exponent. -/
def stripZeros : Nat → Nat → Int → Nat × Int
  | 0, c, e => (c, e)
  | f + 1, c, e => if c % 10 = 0 then stripZeros f (c / 10) (e + 1) else (c, e)

/-- Python `Decimal.__truediv__` on finite operands (the connector only ever divides
by the nonzero literal `Decimal(10000)`, so the division-by-zero exception
path never arises and the function is total; the `nb = 0` branch is
unreachable junk). -/
def decDivT (a b : Dec) : Dec :=
  let sgn : Int := if (a.c < 0) ≠ (b.c < 0) then -1 else 1
  let na := a.c.natAbs
  let nb := b.c.natAbs
  let shift : Int := (numDigits nb : Int) - (numDigits na : Int) + 28 + 1
  let qr : Nat × Nat :=
    if 0 ≤ shift then (na * 10 ^ shift.toNat / nb, na * 10 ^ shift.toNat % nb)
    else (na / (nb * 10 ^ (-shift).toNat), na % (nb * 10 ^ (-shift).toNat))
  let e0 : Int := a.e - b.e - shift
  if qr.2 ≠ 0 then
    let coeff := if qr.1 % 5 = 0 then qr.1 + 1 else qr.1
    round28 ⟨sgn * coeff, e0⟩
  else
    let ce := stripZeros (a.e - b.e - e0).toNat qr.1 e0
    round28 ⟨sgn * ce.1, ce.2⟩

/-- Python `Decimal(str)` on the numeric grammar
`[sign] (digits [. digits] | . digits) [(e|E) [sign] digits]`; `none` models
the constructor raising `InvalidOperation`.  (Python additionally strips
surrounding whitespace and accepts `NaN`/`Infinity` literals and `_` digit
separators; the connector's callers never rely on those and they are not
modelled.) -/
def pyDecOfString (s : String) : Option Dec :=
  let cs := s.data
  let sgncs : Int × List Char :=
    match cs with
    | '+' :: t => (1, t)
    | '-' :: t => (-1, t)
    | t => (1, t)
  let ip := sgncs.2.takeWhile Char.isDigit
  let rest1 := sgncs.2.dropWhile Char.isDigit
  let fprest : List Char × List Char :=
    match rest1 with
    | '.' :: t => (t.takeWhile Char.isDigit, t.dropWhile Char.isDigit)
    | t => ([], t)
  if ip.isEmpty ∧ fprest.1.isEmpty then none
  else
    let mant : Int := sgncs.1 *
      ((ip ++ fprest.1).foldl (fun acc ch => acc * 10 + (ch.toNat - 48)) 0 : Nat)
    match fprest.2 with
    | [] => some ⟨mant, -(fprest.1.length : Int)⟩
    | c :: t =>
      if c = 'e' ∨ c = 'E' then
        let esgnt : Int × List Char :=
          match t with
          | '+' :: t2 => (1, t2)
          | '-' :: t2 => (-1, t2)
          | t2 => (1, t2)
        let ed := esgnt.2.takeWhile Char.isDigit
        if ed.isEmpty ∨ ¬(esgnt.2.dropWhile Char.isDigit).isEmpty then none
        else
          let ev : Int := esgnt.1 *
            (ed.foldl (fun acc ch => acc * 10 + (ch.toNat - 48)) 0 : Nat)
          some ⟨mant, ev - (fprest.1.length : Int)⟩
      else none

/-- Python `int(str)` on the grammar `[sign] digits`; `none` models `int()` raising
`ValueError`.  (Whitespace stripping and `_` separators are not modelled.) -/
def pyIntOfString (s : String) : Option Int :=
  let cs := s.data
  let sgncs : Int × List Char :=
    match cs with
    | '+' :: t => (1, t)
    | '-' :: t => (-1, t)
    | t => (1, t)
  if sgncs.2.isEmpty ∨ ¬sgncs.2.all Char.isDigit then none
  else some (sgncs.1 * (sgncs.2.foldl (fun acc ch => acc * 10 + (ch.toNat - 48)) 0 : Nat))

/-- Python `str.lower()` restricted to ASCII, which is all the connector compares
(hex addresses). -/
def strLower (s : String) : String := ⟨s.data.map Char.toLower⟩

/-! ## Data model (`connector.py` dataclasses, enums and constants) -/

/-- The `RejectReason` enum. -/
inductive RejectReason where
  | insufficientLiquidity
  | priceMoved
  | unsupportedPair
  | rateLimited
  | internalError
  deriving DecidableEq, Repr

/-- The `TradingPair` dataclass (the configured offering). -/
structure TradingPair where
  chain_id : Int
  base_token : String
  quote_token : String
  bid_spread_bps : Int := 30
  ask_spread_bps : Int := 30
  order_amount : Dec := ⟨10, -1⟩
  min_order_size : Dec := ⟨1, -2⟩
  max_order_size : Dec := ⟨10000, -1⟩
  levels : List (Option Int × Option Dec) := []
  deriving DecidableEq, Repr

/-- The `QuoteRequest` dataclass, as built in `_handle_quote_request`. -/
structure QuoteRequest where
  quote_id : String
  chain_id : Int
  mm_id : String
  token_in : String
  token_out : String
  amount_in : String
  recipient : String
  nonce : String
  deadline : Int
  slippage_bps : Int
  deriving DecidableEq, Repr

/-- The JSON object of an inbound `quote_request` frame: each field is
present or absent (`data[k]` raises `KeyError` when absent). -/
structure QrData where
  quote_id : Option String := none
  chain_id : Option Int := none
  mm_id : Option String := none
  token_in : Option String := none
  token_out : Option String := none
  amount_in : Option String := none
  recipient : Option String := none
  nonce : Option String := none
  deadline : Option Int := none
  slippage_bps : Option Int := none
  deriving DecidableEq, Repr

/-- The `ConnectionConfig` dataclass. -/
structure ConnectionConfig where
  depth_push_interval_ms : Int := 1000
  quote_timeout_ms : Int := 5000
  heartbeat_interval_ms : Int := 30000
  deriving DecidableEq, Repr

/-- The optional `config` object of an `auth_response`. -/
structure CfgData where
  depth_push_interval_ms : Option Int := none
  quote_timeout_ms : Option Int := none
  heartbeat_interval_ms : Option Int := none
  deriving DecidableEq, Repr

/-- The JSON object of the first inbound message, as read by
`_handle_connection_ack` (`success` is the truthiness of `data.get("success")`,
so an absent key is falsy). -/
structure AckData where
  type : Option String := none
  success : Option Bool := none
  session_id : Option String := none
  error_message : Option String := none
  config : Option CfgData := none
  deriving DecidableEq, Repr

/-- The metrics dictionary. -/
structure Metrics where
  quotes_received : Nat := 0
  quotes_responded : Nat := 0
  quotes_rejected : Nat := 0
  depth_pushes : Nat := 0
  reconnections : Nat := 0
  deriving DecidableEq, Repr

/-- Pointwise order on metrics (each counter monotone non-decreasing). -/
def Metrics.le (a b : Metrics) : Prop :=
  a.quotes_received ≤ b.quotes_received ∧
  a.quotes_responded ≤ b.quotes_responded ∧
  a.quotes_rejected ≤ b.quotes_rejected ∧
  a.depth_pushes ≤ b.depth_pushes ∧
  a.reconnections ≤ b.reconnections

/-- The `order` object of an outbound `quote_response` frame. -/
structure SignedOrder where
  signer : String
  manager : String
  from_addr : String
  to_addr : String
  input_token : String
  output_token : String
  amount_in : String
  amount_out : String
  deadline : Int
  nonce : String
  extra_data : String
  signature : String
  deriving DecidableEq, Repr

/-- The inputs that determine an EIP-712 `MMQuote` signature: the domain
(`chainId`, `verifyingContract = manager`) and the message fields (the
`extraDataHash` is the constant keccak of empty bytes).  The signer itself
(`eth_account`) is an external collaborator, abstracted as a function from
this record to `Option String` (`none` models the signing call raising). -/
structure SignMsg where
  chain_id : Int
  manager : String
  from_addr : String
  to_addr : String
  input_token : String
  output_token : String
  amount_in : Int
  amount_out : Int
  deadline : Int
  nonce : Int
  deriving DecidableEq, Repr

/-- One rendered depth level (`price` is sent as a decimal string, `amount`
as an integer string; the string rendering is presentation-only and the
numeric values are kept here). -/
structure LevelOut where
  price : Dec
  amount : Int
  deriving DecidableEq, Repr

/-- Outbound wire frames the connector produces. -/
inductive Frame where
  | quoteResponse (quote_id : String) (order : SignedOrder)
  | quoteReject (quote_id : String) (reason : RejectReason) (message : String)
  | depthUpdate (chain_id : Int) (pair_id : String) (token_a : String)
      (token_b : String) (bids : List LevelOut) (asks : List LevelOut)
      (sequence_id : Nat)
  | heartbeatPing
  | heartbeatPong
  deriving DecidableEq, Repr

/-- The `RFQ_MANAGERS` table. -/
def RFQ_MANAGERS : Int → Option String
  | 56 => some "0x94020Af3571f253754e5566710A89666d90Df615"
  | 8453 => some "0x7648CE928efa92372E2bb34086421a8a1702bD36"
  | _ => none

/-- The `WRAPPED_TOKENS` table. -/
def WRAPPED_TOKENS : Int → Option String
  | 56 => some "0xbb4CdB9CBd36B01bD1cBaEBF2De08d9173bc095c"
  | 8453 => some "0x4200000000000000000000000000000000000006"
  | _ => none

/-- The `ZERO_ADDRESS` constant. -/
def ZERO_ADDRESS : String := "0x0000000000000000000000000000000000000000"

/-- The connector state the quote/depth paths read: configuration, the pair
registry (a Python dict, i.e. an insertion-ordered association list) and the
injected price oracle.  `price_callback = some f` with `f a b = none` models
the callback raising. -/
structure Connector where
  chain_id : Int
  signer_address : String
  pairs : List (String × TradingPair) := []
  price_callback : Option (String → String → Option Dec) := none
  metrics : Metrics := {}

/-- Python dict assignment `self.pairs[pair_id] = pair`: replace in place if
the key exists, else append (insertion order preserved). -/
def dictInsert (l : List (String × TradingPair)) (k : String) (v : TradingPair) :
    List (String × TradingPair) :=
  if l.any (fun kv => kv.1 == k) then
    l.map (fun kv => if kv.1 == k then (k, v) else kv)
  else l ++ [(k, v)]

/-- Python dict lookup `self.pairs[pair_id]` guarded by `in`. -/
def lookupPair (l : List (String × TradingPair)) (k : String) : Option TradingPair :=
  (l.find? (fun kv => kv.1 == k)).map (fun kv => kv.2)

/-- Method `add_pair`. -/
def add_pair (c : Connector) (p : TradingPair) : Connector :=
  { c with pairs := dictInsert c.pairs (p.base_token ++ "-" ++ p.quote_token) p }

/-- Zero-address normalisation used by `_find_pair` and `_calculate_quote`:
replace the zero address with the chain's wrapped native token
(`WRAPPED_TOKENS.get(self.chain_id, "")`). -/
def normalizeZero (c : Connector) (t : String) : String :=
  if t = ZERO_ADDRESS then (WRAPPED_TOKENS c.chain_id).getD "" else t

/-- Method `_find_pair`: normalise the zero address, then try the forward key and
the reverse key in the pair registry (exact string keys). -/
def find_pair (c : Connector) (token_in token_out : String) : Option TradingPair :=
  let tin := normalizeZero c token_in
  let tout := normalizeZero c token_out
  match lookupPair c.pairs (tin ++ "-" ++ tout) with
  | some p => some p
  | none => lookupPair c.pairs (tout ++ "-" ++ tin)

/-- The mid-price acquisition of `_calculate_quote` /
`_build_depth_snapshot`: call the callback if set, else the `Decimal("1.0")`
fallback; `none` propagates a raising callback. -/
def midPriceOf (c : Connector) (a b : String) : Option Dec :=
  match c.price_callback with
  | some f => f a b
  | none => some ⟨10, -1⟩

/-- Spread-side selection of `_calculate_quote`: bid spread iff the
zero-normalised `token_in` equals the pair's base token case-insensitively. -/
def selectSpread (c : Connector) (req : QuoteRequest) (pair : TradingPair) : Int :=
  if strLower (normalizeZero c req.token_in) = strLower pair.base_token then
    pair.bid_spread_bps
  else pair.ask_spread_bps

/-- The factor `spread_factor = Decimal(1) - Decimal(spread_bps) / Decimal(10000)`. -/
def spreadFactor (s : Int) : Dec := decSub ⟨1, 0⟩ (decDivT ⟨s, 0⟩ ⟨10000, 0⟩)

/-- The constant `10 ** 18` as a `Decimal`. -/
def decE18 : Dec := ⟨10 ^ 18, 0⟩

/-- Method `_calculate_quote`.  A `none` anywhere in the body models the Python
exception caught by the function's blanket `except`, which returns `None`;
the caller cannot distinguish that from the size-limit `None`s. -/
def calculate_quote (c : Connector) (req : QuoteRequest) (pair : TradingPair) :
    Option Int :=
  match pyDecOfString req.amount_in with
  | none => none
  | some amount_in =>
    if decLt amount_in (decMul pair.min_order_size decE18) then none
    else if decLt (decMul pair.max_order_size decE18) amount_in then none
    else
      match midPriceOf c req.token_in req.token_out with
      | none => none
      | some mid_price =>
        some (decToInt (decMul (decMul amount_in mid_price)
          (spreadFactor (selectSpread c req pair))))

/-- Field extraction of `_handle_quote_request`: any missing required key
raises `KeyError` (→ `none`); `slippage_bps` defaults to `50`. -/
def parseQuoteRequest (d : QrData) : Option QuoteRequest :=
  match d.quote_id, d.chain_id, d.mm_id, d.token_in, d.token_out, d.amount_in,
      d.recipient, d.nonce, d.deadline with
  | some qid, some cid, some mid, some tin, some tout, some ain, some rcp,
      some non, some dl =>
    some ⟨qid, cid, mid, tin, tout, ain, rcp, non, dl, d.slippage_bps.getD 50⟩
  | _, _, _, _, _, _, _, _, _ => none

/-- Method `_send_reject`: bump `quotes_rejected` and emit the reject frame. -/
def send_reject (m : Metrics) (quote_id : String) (reason : RejectReason)
    (message : String) : Metrics × Frame :=
  ({ m with quotes_rejected := m.quotes_rejected + 1 },
   Frame.quoteReject quote_id reason message)

/-- Method `_send_quote_response`: look up the RFQ manager (raising `ValueError` on
an unknown chain), re-parse the request's integer fields (`int(...)` can
raise), sign (the abstract signer can raise) and emit the response frame.
`Except.error` carries `str(e)` of the raised exception (library exception
texts abbreviated). -/
def send_quote_response (c : Connector) (sign : SignMsg → Option String)
    (req : QuoteRequest) (amount_out : Int) : Except String Frame :=
  match RFQ_MANAGERS c.chain_id with
  | none => .error ("Unknown chain ID: " ++ toString c.chain_id)
  | some manager =>
    match pyIntOfString req.amount_in with
    | none => .error "invalid literal for int()"
    | some ain =>
      match pyIntOfString req.nonce with
      | none => .error "invalid literal for int()"
      | some non =>
        match sign ⟨c.chain_id, manager, req.recipient, req.recipient,
            req.token_in, req.token_out, ain, amount_out, req.deadline, non⟩ with
        | none => .error "signing failed"
        | some sig =>
          .ok (Frame.quoteResponse req.quote_id
            { signer := c.signer_address
              manager := manager
              from_addr := req.recipient
              to_addr := req.recipient
              input_token := req.token_in
              output_token := req.token_out
              amount_in := req.amount_in
              amount_out := toString amount_out
              deadline := req.deadline
              nonce := req.nonce
              extra_data := "0x"
              signature := "0x" ++ sig })

/-- Method `_handle_quote_request`: bump `quotes_received`, then exactly one of the
four outcomes of the source's try/except: unsupported-pair reject,
cannot-quote reject, signed response (bumping `quotes_responded`), or the
blanket-`except` internal-error reject keyed by `data.get("quote_id", "")`.
Returns the updated metrics and the outbound frames (sends are assumed to
succeed; a raising send is transport-fatal and ends the session). -/
def handle_quote_request (c : Connector) (sign : SignMsg → Option String)
    (d : QrData) : Metrics × List Frame :=
  let m0 := { c.metrics with quotes_received := c.metrics.quotes_received + 1 }
  match parseQuoteRequest d with
  | none =>
    let mf := send_reject m0 (d.quote_id.getD "") RejectReason.internalError
      "KeyError"
    (mf.1, [mf.2])
  | some req =>
    match find_pair c req.token_in req.token_out with
    | none =>
      let mf := send_reject m0 req.quote_id RejectReason.unsupportedPair
        "Pair not supported"
      (mf.1, [mf.2])
    | some pair =>
      match calculate_quote c req pair with
      | none =>
        let mf := send_reject m0 req.quote_id RejectReason.insufficientLiquidity
          "Cannot provide quote"
        (mf.1, [mf.2])
      | some amount_out =>
        match send_quote_response c sign req amount_out with
        | .ok f => ({ m0 with quotes_responded := m0.quotes_responded + 1 }, [f])
        | .error e =>
          let mf := send_reject m0 (d.quote_id.getD "") RejectReason.internalError e
          (mf.1, [mf.2])

/-- Python `Decimal.__add__`: exact sum on aligned exponents, then context
rounding. -/
def decAdd (a b : Dec) : Dec :=
  let m := min a.e b.e
  round28 ⟨a.c * 10 ^ (a.e - m).toNat + b.c * 10 ^ (b.e - m).toNat, m⟩

/-- Ascending stable sort of ask levels by price (`asks.sort(key=...)`). -/
def sortAsksAsc (l : List LevelOut) : List LevelOut :=
  l.mergeSort (fun x y => !decLt y.price x.price)

/-- Descending stable sort of bid levels by price
(`bids.sort(key=..., reverse=True)`). -/
def sortBidsDesc (l : List LevelOut) : List LevelOut :=
  l.mergeSort (fun x y => !decLt x.price y.price)

/-- Method `_build_depth_snapshot`: mid price from the oracle (the `none` of a
raising callback propagates), one rendered level per configured entry — or a
single level from the pair's own spreads when `levels` is empty — then the
bid/ask sorts.  Level entries are `{spread_bps, amount}` dicts with defaults
`30` and `"1.0"`. -/
def build_depth_snapshot (c : Connector) (pair : TradingPair) (seq : Nat) :
    Option Frame :=
  match midPriceOf c pair.base_token pair.quote_token with
  | none => none
  | some mid =>
    let bidsAsks : List LevelOut × List LevelOut :=
      if pair.levels.isEmpty then
        ([⟨decMul mid (decSub ⟨1, 0⟩ (decDivT ⟨pair.bid_spread_bps, 0⟩ ⟨10000, 0⟩)),
           decToInt (decMul pair.order_amount decE18)⟩],
         [⟨decMul mid (decAdd ⟨1, 0⟩ (decDivT ⟨pair.ask_spread_bps, 0⟩ ⟨10000, 0⟩)),
           decToInt (decMul pair.order_amount decE18)⟩])
      else
        (pair.levels.map fun lv =>
          ⟨decMul mid (decSub ⟨1, 0⟩ (decDivT ⟨lv.1.getD 30, 0⟩ ⟨10000, 0⟩)),
           decToInt (decMul (lv.2.getD ⟨10, -1⟩) decE18)⟩,
         pair.levels.map fun lv =>
          ⟨decMul mid (decAdd ⟨1, 0⟩ (decDivT ⟨lv.1.getD 30, 0⟩ ⟨10000, 0⟩)),
           decToInt (decMul (lv.2.getD ⟨10, -1⟩) decE18)⟩)
    some (Frame.depthUpdate pair.chain_id
      (pair.base_token ++ "-" ++ pair.quote_token) pair.base_token
      pair.quote_token (sortBidsDesc bidsAsks.1) (sortAsksAsc bidsAsks.2) seq)

/-- One pass of the `for pair_id, pair in self.pairs.items()` body of
`_depth_push_loop`: per pair, build a snapshot with the current
`sequence_id`, send it, bump `depth_pushes`, increment `sequence_id`.  An
exception (raising oracle) aborts the remainder of the pass — the loop's
`except` logs and sleeps — leaving the counter where it was. -/
def depth_push_round (c : Connector) :
    List (String × TradingPair) → Metrics → Nat → Metrics × Nat × List Frame
  | [], m, seq => (m, seq, [])
  | (_, p) :: rest, m, seq =>
    match build_depth_snapshot c p seq with
    | none => (m, seq, [])
    | some f =>
      let r := depth_push_round c rest
        { m with depth_pushes := m.depth_pushes + 1 } (seq + 1)
      (r.1, r.2.1, f :: r.2.2)

/-- Iterations (`n` of them) of the `while self._running` body of `_depth_push_loop`,
threading the metrics and the session-local `sequence_id`. -/
def depth_push_rounds (c : Connector) (m : Metrics) (seq : Nat) :
    Nat → Metrics × Nat × List Frame
  | 0 => (m, seq, [])
  | n + 1 =>
    let r1 := depth_push_round c c.pairs m seq
    let r2 := depth_push_rounds c r1.1 r1.2.1 n
    (r2.1, r2.2.1, r1.2.2 ++ r2.2.2)

/-- Method `_depth_push_loop` observed for `rounds` passes of one session: the
session-local counter starts at `sequence_id = 0`. -/
def depth_push_loop (c : Connector) (rounds : Nat) : Metrics × Nat × List Frame :=
  depth_push_rounds c c.metrics 0 rounds

/-- The `quote_id` carried by an outbound frame, when any. -/
def frameQuoteId : Frame → Option String
  | .quoteResponse qid _ => some qid
  | .quoteReject qid _ _ => some qid
  | _ => none

/-- Whether a frame is a `quote_response` or a `quote_reject`. -/
def isQuoteOutcome : Frame → Bool
  | .quoteResponse _ _ => true
  | .quoteReject _ _ _ => true
  | _ => false

/-- Whether a frame is a `quote_response`. -/
def isQuoteResponseFrame : Frame → Bool
  | .quoteResponse _ _ => true
  | _ => false

/-- The `sequence_id` of a `depth_update` frame, when any. -/
def frameSeqId : Frame → Option Nat
  | .depthUpdate _ _ _ _ _ _ seq => some seq
  | _ => none

/-- The `sequence_id`s of the depth frames of an outbound stream, in order. -/
def depthSeqIds (fs : List Frame) : List Nat := fs.filterMap frameSeqId

/-- Config merging of `_handle_connection_ack`: when the auth response has a
`config` object, each interval is taken from it with the documented default;
otherwise the existing config is kept. -/
def mergeConfig (cfg : ConnectionConfig) (d : Option CfgData) : ConnectionConfig :=
  match d with
  | none => cfg
  | some cc =>
    ⟨cc.depth_push_interval_ms.getD 1000, cc.quote_timeout_ms.getD 5000,
     cc.heartbeat_interval_ms.getD 30000⟩

/-- Method `_handle_connection_ack` on the first inbound message (`none` models a
frame `json.loads` cannot parse, whose exception is fatal here).  An
`auth_response` with truthy `success` yields the session id and merged
config; an `auth_response` with falsy `success` raises (fatal); any other
`type` falls out of the `if` and the method returns with nothing set. -/
def handle_connection_ack (cfg : ConnectionConfig) (raw : Option AckData) :
    Except String (Option String × ConnectionConfig) :=
  match raw with
  | none => .error "JSONDecodeError"
  | some data =>
    if data.type = some "auth_response" then
      if data.success.getD false then
        .ok (data.session_id, mergeConfig cfg data.config)
      else .error ("Auth failed: " ++ data.error_message.getD "None")
    else .ok (none, cfg)

/-- Whether an `Except` is a success. -/
def exceptOk {ε α : Type} : Except ε α → Bool
  | .ok _ => true
  | .error _ => false

/-- Whether `_connect_and_run` proceeds past the acknowledgment into the LIVE
phase (starting the depth, heartbeat and reader activities): it does exactly
when `_handle_connection_ack` returns without raising. -/
def sessionGoesLive (raw : Option AckData) : Bool :=
  exceptOk (handle_connection_ack {} raw)

/-- Outcome of one `_connect_and_run` attempt as the supervisor loop in
`start` sees it: either `websockets.connect` itself failed (the delay is
untouched), or the transport was established — at which point line 201 resets
`self._reconnect_delay = 1` — and the session later raised (auth failure,
transport drop, …). -/
inductive AttemptOutcome where
  | connectFail
  | postConnectFail
  deriving DecidableEq, Repr

/-- One failing iteration of the `while self._running` loop of `start`:
returns the sleep performed and the delay left for the next iteration
(`delay = min(delay * 2, 60)` after sleeping). -/
def supervisor_step (delay : Nat) (a : AttemptOutcome) : Nat × Nat :=
  match a with
  | .connectFail => (delay, min (delay * 2) 60)
  | .postConnectFail => (1, min (1 * 2) 60)

/-- The successive sleeps the supervisor performs over a run of failing
attempts, starting from the given delay (initially `1`). -/
def supervisor_sleeps (delay : Nat) : List AttemptOutcome → List Nat
  | [] => []
  | a :: rest =>
    let s := supervisor_step delay a
    s.1 :: supervisor_sleeps s.2 rest

/-- The `self.metrics["reconnections"] += 1` of a failing supervisor
iteration. -/
def bump_reconnections (m : Metrics) : Metrics :=
  { m with reconnections := m.reconnections + 1 }

/-- Modelled from the spec: the §4.2 output formula
`amountOut = floor(amountIn × midPrice × (1 − spreadBps/10000))`, exact
rational arithmetic. -/
def specAmountOut (amountIn : ℤ) (mid : ℚ) (spreadBps : ℤ) : ℤ :=
  ⌊(amountIn : ℚ) * mid * (1 - (spreadBps : ℚ) / 10000)⌋

/-! ## Concrete scenario fixtures (for witnesses and counterexamples) -/

/-- A signer stub that always succeeds. -/
def sigOk : SignMsg → Option String := fun _ => some "ab"

/-- A connector on BSC with one registered pair `0xAAA/0xBBB` (default
spreads and sizes) and no oracle (the `Decimal("1.0")` fallback applies). -/
def connBasic : Connector :=
  { chain_id := 56
    signer_address := "0xS"
    pairs := [("0xAAA-0xBBB",
      { chain_id := 56, base_token := "0xAAA", quote_token := "0xBBB" })] }

/-- The registered pair of `connBasic`. -/
def pairBasic : TradingPair :=
  { chain_id := 56, base_token := "0xAAA", quote_token := "0xBBB" }

/-- A well-formed `quote_request` frame for `connBasic` with `amount_in`
`2 * 10^16` (in range) and an already-expired `deadline` of `1`
(1970-01-01T00:00:01Z). -/
def dStale : QrData :=
  { quote_id := some "q2", chain_id := some 56, mm_id := some "mm1"
    token_in := some "0xAAA", token_out := some "0xBBB"
    amount_in := some "20000000000000000", recipient := some "0xR"
    nonce := some "7", deadline := some 1, slippage_bps := none }

/-- A well-formed `quote_request` frame for `connBasic` used in the C1
witness. -/
def dW1 : QrData :=
  { quote_id := some "q1", chain_id := some 56, mm_id := some "mm1"
    token_in := some "0xAAA", token_out := some "0xBBB"
    amount_in := some "30000000000000000", recipient := some "0xR"
    nonce := some "8", deadline := some 1700000000, slippage_bps := some 40 }

/-- Connector for the C3 counterexample: pair `0xA/0xB`, default spreads,
`max_order_size = 1E+11` (so `maxBase = 10^29`), no oracle (mid `1.0`). -/
def connX3 : Connector :=
  { chain_id := 56
    signer_address := "0xS"
    pairs := [("0xA-0xB",
      { chain_id := 56, base_token := "0xA", quote_token := "0xB",
        max_order_size := ⟨1, 11⟩ })] }

/-- The registered pair of `connX3`. -/
def pairX3 : TradingPair :=
  { chain_id := 56, base_token := "0xA", quote_token := "0xB",
    max_order_size := ⟨1, 11⟩ }

/-- A parsed quote request with the 29-digit `amount_in = 10^28 + 6`, in
range for `pairX3`. -/
def reqX3 : QuoteRequest :=
  { quote_id := "q3", chain_id := 56, mm_id := "mm1", token_in := "0xA"
    token_out := "0xB", amount_in := "10000000000000000000000000006"
    recipient := "0xR", nonce := "7", deadline := 1700000000
    slippage_bps := 50 }

/-- Connector for the C3 witness (scenario S1): pair `0xA/0xB`, oracle mid
price `600`. -/
def connW3 : Connector :=
  { chain_id := 56
    signer_address := "0xS"
    pairs := [("0xA-0xB",
      { chain_id := 56, base_token := "0xA", quote_token := "0xB" })]
    price_callback := some (fun _ _ => some ⟨600, 0⟩) }

/-- The registered pair of `connW3`. -/
def pairW3 : TradingPair :=
  { chain_id := 56, base_token := "0xA", quote_token := "0xB" }

/-- The S1 request: sell 1 base token (`10^18` base units). -/
def reqW3 : QuoteRequest :=
  { quote_id := "q4", chain_id := 56, mm_id := "mm1", token_in := "0xA"
    token_out := "0xB", amount_in := "1000000000000000000"
    recipient := "0xR", nonce := "7", deadline := 1700000000
    slippage_bps := 50 }

/-- Connector whose oracle callback raises on every call (models a failing
price source). -/
def connOracleFail : Connector :=
  { chain_id := 56
    signer_address := "0xS"
    pairs := [("0xAAA-0xBBB",
      { chain_id := 56, base_token := "0xAAA", quote_token := "0xBBB" })]
    price_callback := some (fun _ _ => none) }

/-- An in-range `quote_request` frame for `connOracleFail` (C4
counterexample). -/
def dX4 : QrData :=
  { quote_id := some "q5", chain_id := some 56, mm_id := some "mm1"
    token_in := some "0xAAA", token_out := some "0xBBB"
    amount_in := some "30000000000000000", recipient := some "0xR"
    nonce := some "9", deadline := some 1700000000, slippage_bps := none }

/-- An in-range `quote_request` frame for `connOracleFail` (C5
counterexample and C5 witness). -/
def dX5 : QrData :=
  { quote_id := some "q6", chain_id := some 56, mm_id := some "mm1"
    token_in := some "0xAAA", token_out := some "0xBBB"
    amount_in := some "40000000000000000", recipient := some "0xR"
    nonce := some "10", deadline := some 1700000000, slippage_bps := none }

/-- The parsed form of `dW1`. -/
def reqW1 : QuoteRequest :=
  { quote_id := "q1", chain_id := 56, mm_id := "mm1", token_in := "0xAAA"
    token_out := "0xBBB", amount_in := "30000000000000000"
    recipient := "0xR", nonce := "8", deadline := 1700000000
    slippage_bps := 40 }

/-- The parsed form of `dX4`. -/
def reqX4 : QuoteRequest :=
  { quote_id := "q5", chain_id := 56, mm_id := "mm1", token_in := "0xAAA"
    token_out := "0xBBB", amount_in := "30000000000000000"
    recipient := "0xR", nonce := "9", deadline := 1700000000
    slippage_bps := 50 }

/-- The parsed form of `dX5`. -/
def reqX5 : QuoteRequest :=
  { quote_id := "q6", chain_id := 56, mm_id := "mm1", token_in := "0xAAA"
    token_out := "0xBBB", amount_in := "40000000000000000"
    recipient := "0xR", nonce := "10", deadline := 1700000000
    slippage_bps := 50 }

/-- Connector for the C6 counterexample: pair registered with mixed-case
addresses `0xAb/0xCd`. -/
def connX6 : Connector :=
  { chain_id := 56
    signer_address := "0xS"
    pairs := [("0xAb-0xCd",
      { chain_id := 56, base_token := "0xAb", quote_token := "0xCd" })] }

/-- The registered pair of `connX6`. -/
def pairX6 : TradingPair :=
  { chain_id := 56, base_token := "0xAb", quote_token := "0xCd" }

/-- Connector for the C6 witness: a pair whose quote side is BSC's wrapped
native token, registered as `0xU-<WBNB>`. -/
def connW6 : Connector :=
  { chain_id := 56
    signer_address := "0xS"
    pairs := [("0xU-0xbb4CdB9CBd36B01bD1cBaEBF2De08d9173bc095c",
      { chain_id := 56, base_token := "0xU",
        quote_token := "0xbb4CdB9CBd36B01bD1cBaEBF2De08d9173bc095c" })] }

/-- The registered pair of `connW6`. -/
def pairW6 : TradingPair :=
  { chain_id := 56, base_token := "0xU",
    quote_token := "0xbb4CdB9CBd36B01bD1cBaEBF2De08d9173bc095c" }

/-- A first inbound message that is a heartbeat, not an `auth_response`. -/
def hbAck : AckData := { type := some "heartbeat" }

/-! ## Value semantics of the `Decimal` model -/

theorem excessDigitsAux_eq_zero (f n : Nat) (h : n < 10 ^ 28) :
    excessDigitsAux f n = 0 := by
  cases f with
  | zero => rfl
  | succ f => simp only [excessDigitsAux]; rw [if_pos h]

/-- Context rounding is the identity on coefficients within the 28-digit
precision. -/
theorem round28_id (x : Dec) (h : x.c.natAbs < 10 ^ 28) : round28 x = x := by
  unfold round28 excessDigits
  simp [excessDigitsAux_eq_zero _ _ h]

theorem Dec.val_mk_int (n : Int) : (Dec.mk n 0).val = (n : ℚ) := by
  simp [Dec.val]

theorem decE18_val : decE18.val = (10 : ℚ) ^ (18 : ℕ) := by
  norm_num [decE18, Dec.val]

/-- Scaling a `Dec` to a common exponent preserves the value up to a power of
ten. -/
theorem val_scale (a : Dec) (m : Int) (hm : m ≤ a.e) :
    ((a.c * 10 ^ (a.e - m).toNat : ℤ) : ℚ) = a.val * (10 : ℚ) ^ (-m) := by
  have h10 : (10 : ℚ) ≠ 0 := by norm_num
  unfold Dec.val
  push_cast
  rw [← zpow_natCast (10 : ℚ) (a.e - m).toNat,
    Int.toNat_of_nonneg (by omega : (0 : ℤ) ≤ a.e - m), mul_assoc,
    ← zpow_add₀ h10, ← sub_eq_add_neg]

/-- Comparison `decLt` decides strict value order. -/
theorem decLt_iff (a b : Dec) : decLt a b = true ↔ a.val < b.val := by
  unfold decLt
  simp only [decide_eq_true_eq]
  rw [← @Int.cast_lt ℚ, val_scale a (min a.e b.e) (min_le_left _ _),
    val_scale b (min a.e b.e) (min_le_right _ _)]
  exact mul_lt_mul_right (zpow_pos (by norm_num) _)

theorem decLt_false_iff (a b : Dec) : decLt a b = false ↔ b.val ≤ a.val := by
  rw [← not_lt, ← decLt_iff]
  cases decLt a b <;> simp

/-- Multiplication `decMul` is exact multiplication when the product coefficient fits the
context precision. -/
theorem decMul_val (a b : Dec) (h : (a.c * b.c).natAbs < 10 ^ 28) :
    (decMul a b).val = a.val * b.val := by
  unfold decMul
  rw [round28_id _ h]
  unfold Dec.val
  push_cast
  rw [zpow_add₀ (by norm_num : (10 : ℚ) ≠ 0)]
  ring

/-- Truncation by `int()` agrees with the rational floor on nonnegative
values. -/
theorem decToInt_eq_floor (x : Dec) (hc : 0 ≤ x.c) : decToInt x = ⌊x.val⌋ := by
  unfold decToInt Dec.val
  split
  case isTrue he =>
    conv_rhs => rw [← Int.toNat_of_nonneg he, zpow_natCast]
    rw [show (x.c : ℚ) * 10 ^ x.e.toNat = ((x.c * 10 ^ x.e.toNat : ℤ) : ℚ) by
      push_cast; ring]
    rw [Int.floor_intCast]
  case isFalse he =>
    have hke : x.e = -(((-x.e).toNat : ℕ) : ℤ) := by
      rw [Int.toNat_of_nonneg (by omega : (0 : ℤ) ≤ -x.e)]; ring
    rw [Int.tdiv_eq_ediv hc (by positivity)]
    conv_rhs => rw [hke]
    rw [zpow_neg, zpow_natCast, ← div_eq_mul_inv]
    rw [show ((10 : ℚ) ^ (-x.e).toNat) = (((10 ^ (-x.e).toNat : ℕ) : ℚ)) by push_cast; ring]
    rw [Rat.floor_intCast_div_natCast]
    push_cast
    ring_nf

/-- A `Dec` whose coefficient scaled by `10 ^ (4 + e)` equals `10^4 - s` has
value `1 - s/10^4`. -/
theorem val_of_scaled_eq (sf : Dec) (s : Int)
    (h : sf.c * 10 ^ (4 + sf.e).toNat = 10 ^ 4 - s) (he1 : -4 ≤ sf.e) :
    sf.val = 1 - (s : ℚ) / 10 ^ 4 := by
  have h10 : (10 : ℚ) ≠ 0 := by norm_num
  have key : sf.val * (10 : ℚ) ^ (4 : ℕ) = 10 ^ 4 - (s : ℚ) := by
    unfold Dec.val
    have hcast : ((sf.c * 10 ^ (4 + sf.e).toNat : ℤ) : ℚ) = ((10 ^ 4 - s : ℤ) : ℚ) := by
      exact_mod_cast congrArg (fun z : ℤ => (z : ℚ)) h
    push_cast at hcast
    rw [← zpow_natCast (10 : ℚ) (4 + sf.e).toNat,
      Int.toNat_of_nonneg (by omega : (0 : ℤ) ≤ 4 + sf.e),
      zpow_add₀ h10] at hcast
    calc (sf.c : ℚ) * (10 : ℚ) ^ sf.e * (10 : ℚ) ^ (4 : ℕ)
        = (sf.c : ℚ) * ((10 : ℚ) ^ (4 : ℤ) * (10 : ℚ) ^ sf.e) := by
          rw [show ((10 : ℚ) ^ (4 : ℤ)) = (10 : ℚ) ^ (4 : ℕ) by norm_num]; ring
      _ = 10 ^ 4 - (s : ℚ) := hcast
  have h4 : ((10 : ℚ) ^ (4 : ℕ)) ≠ 0 := by norm_num
  field_simp at key ⊢
  linarith [key]

theorem Metrics.le_refl (m : Metrics) : m.le m := by
  unfold Metrics.le; omega

theorem Metrics.le_trans {a b c : Metrics} (h1 : a.le b) (h2 : b.le c) : a.le c := by
  unfold Metrics.le at *; omega

/-- Parsing `parseQuoteRequest` echoes the frame's `quote_id`. -/
theorem parseQuoteRequest_quote_id (d : QrData) (req : QuoteRequest)
    (hp : parseQuoteRequest d = some req) : d.quote_id = some req.quote_id := by
  unfold parseQuoteRequest at hp
  split at hp
  next qid _ _ _ _ _ _ _ _ h1 _ _ _ _ _ _ _ _ =>
    cases hp; exact h1
  next => exact absurd hp (by simp)

/-- A successful `_send_quote_response` emits a `quote_response` frame
carrying the request's `quote_id`. -/
theorem send_quote_response_ok (c : Connector) (sign : SignMsg → Option String)
    (req : QuoteRequest) (ao : Int) (f : Frame)
    (h : send_quote_response c sign req ao = .ok f) :
    frameQuoteId f = some req.quote_id ∧ isQuoteOutcome f = true ∧
      isQuoteResponseFrame f = true := by
  unfold send_quote_response at h
  split at h
  · exact absurd h (by simp)
  · split at h
    · exact absurd h (by simp)
    · split at h
      · exact absurd h (by simp)
      · split at h
        · exact absurd h (by simp)
        · cases h; exact ⟨rfl, rfl, rfl⟩

/-! ## Claim theorems -/

/-- C1: for every `quote_request` frame received in a LIVE session, the
session emits exactly one outbound frame carrying that request's `quote_id`,
and that frame is either a `quote_response` or a `quote_reject`, on every
handler path (unsupported pair, out-of-range amount, signing failure,
malformed fields). -/
theorem quoteRequest_single_outcome (c : Connector) (sign : SignMsg → Option String)
    (d : QrData) (q : String) (h : d.quote_id = some q) :
    (handle_quote_request c sign d).2.length = 1 ∧
    ∀ f ∈ (handle_quote_request c sign d).2,
      frameQuoteId f = some q ∧ isQuoteOutcome f = true := by
  unfold handle_quote_request
  cases hp : parseQuoteRequest d with
  | none =>
    simp [hp, send_reject, h, frameQuoteId, isQuoteOutcome]
  | some req =>
    have hq : req.quote_id = q := by
      have h2 := parseQuoteRequest_quote_id d req hp
      rw [h] at h2
      exact (Option.some_inj.mp h2).symm
    cases hf : find_pair c req.token_in req.token_out with
    | none => simp [hp, hf, send_reject, hq, frameQuoteId, isQuoteOutcome]
    | some pair =>
      cases hc : calculate_quote c req pair with
      | none => simp [hp, hf, hc, send_reject, hq, frameQuoteId, isQuoteOutcome]
      | some ao =>
        cases hs : send_quote_response c sign req ao with
        | ok f =>
          have hok := send_quote_response_ok c sign req ao f hs
          simp [hp, hf, hc, hs, hok.1, hok.2.1, hq]
        | error e =>
          simp [hp, hf, hc, hs, send_reject, h, frameQuoteId, isQuoteOutcome]

/-- Witness for C1 at a concrete LIVE-session request. -/
theorem quoteRequest_single_outcome_witness :
    dW1.quote_id = some "q1" ∧
    ((handle_quote_request connBasic sigOk dW1).2.length = 1 ∧
      ∀ f ∈ (handle_quote_request connBasic sigOk dW1).2,
        frameQuoteId f = some "q1" ∧ isQuoteOutcome f = true) :=
  ⟨by decide, quoteRequest_single_outcome connBasic sigOk dW1 "q1" (by decide)⟩

/-- C2 (code-bug evidence): the handler performs no deadline check at all.
On a well-formed in-range request whose `deadline` is unix second `1` — long
past at any possible receipt time — the session still emits a
`quote_response` instead of the `INTERNAL_ERROR` reject the specification
mandates.  Note that `handle_quote_request` does not even consult a clock:
no path depends on `deadline` except echoing it into the signed order. -/
theorem stale_deadline_still_answered :
    dStale.deadline = some 1 ∧
    (handle_quote_request connBasic sigOk dStale).2.map isQuoteResponseFrame =
      [true] :=
  ⟨rfl, by decide⟩

/-- C5 counterexample: on a registered pair with in-range `amount_in`, a
failing oracle call makes `_calculate_quote` return `None`, and the handler
rejects with `REJECT_REASON_INSUFFICIENT_LIQUIDITY` — not the
`REJECT_REASON_INTERNAL_ERROR` the claim asserts. -/
theorem pricing_failure_rejects_insufficient_liquidity :
    find_pair connOracleFail "0xAAA" "0xBBB" = some pairBasic ∧
    decLt ⟨40000000000000000, 0⟩ (decMul pairBasic.min_order_size decE18) = false ∧
    decLt (decMul pairBasic.max_order_size decE18) ⟨40000000000000000, 0⟩ = false ∧
    (handle_quote_request connOracleFail sigOk dX5).2 =
      [Frame.quoteReject "q6" RejectReason.insufficientLiquidity
        "Cannot provide quote"] ∧
    RejectReason.insufficientLiquidity ≠ RejectReason.internalError := by
  refine ⟨by decide, by decide, by decide, by decide, by decide⟩

/-- C5 as amended: on a registered pair whose `amount_in` parses and is
within the size bounds, a pricing failure (here: the oracle call raising)
makes the session emit a `quote_reject` with reason
`REJECT_REASON_INSUFFICIENT_LIQUIDITY` and message "Cannot provide quote" —
the code routes every `_calculate_quote` failure through the same `None`
channel as the size checks; `INTERNAL_ERROR` is reserved for exceptions that
escape to the handler's blanket `except` (missing fields, unknown chain,
unparseable nonce, signing failure). -/
theorem pricing_failure_reject_reason (c : Connector) (sign : SignMsg → Option String)
    (d : QrData) (req : QuoteRequest) (pair : TradingPair) (a : Dec)
    (hp : parseQuoteRequest d = some req)
    (hf : find_pair c req.token_in req.token_out = some pair)
    (ha : pyDecOfString req.amount_in = some a)
    (hmin : decLt a (decMul pair.min_order_size decE18) = false)
    (hmax : decLt (decMul pair.max_order_size decE18) a = false)
    (hcb : midPriceOf c req.token_in req.token_out = none) :
    (handle_quote_request c sign d).2 =
      [Frame.quoteReject req.quote_id RejectReason.insufficientLiquidity
        "Cannot provide quote"] := by
  have hcalc : calculate_quote c req pair = none := by
    unfold calculate_quote
    simp [ha, hmin, hmax, hcb]
  unfold handle_quote_request
  simp [hp, hf, hcalc, send_reject]

/-- Witness for the amended C5 at a concrete failing-oracle request. -/
theorem pricing_failure_reject_reason_witness :
    parseQuoteRequest dX5 = some reqX5 ∧
    (handle_quote_request connOracleFail sigOk dX5).2 =
      [Frame.quoteReject reqX5.quote_id RejectReason.insufficientLiquidity
        "Cannot provide quote"] :=
  ⟨by decide,
    pricing_failure_reject_reason connOracleFail sigOk dX5 reqX5 pairBasic
      ⟨40000000000000000, 0⟩ (by decide) (by decide) (by decide) (by decide)
      (by decide) (by decide)⟩

/-- C4 counterexample: the "exactly when" is false — a request whose
`amount_in` (`3 * 10^16`) lies inside
`[minOrderSize * 10^18, maxOrderSize * 10^18]` is nevertheless rejected with
`REJECT_REASON_INSUFFICIENT_LIQUIDITY` when the oracle call fails, because
every `_calculate_quote` failure shares the size-check `None` channel. -/
theorem size_reject_reason_not_exclusive :
    (handle_quote_request connOracleFail sigOk dX4).2 =
      [Frame.quoteReject "q5" RejectReason.insufficientLiquidity
        "Cannot provide quote"] ∧
    pyDecOfString reqX4.amount_in = some ⟨30000000000000000, 0⟩ ∧
    ¬(((30000000000000000 : ℤ) : ℚ) < pairBasic.min_order_size.val * 10 ^ 18 ∨
      pairBasic.max_order_size.val * 10 ^ 18 < ((30000000000000000 : ℤ) : ℚ)) := by
  refine ⟨by decide, by decide, ?_⟩
  push_neg
  constructor <;> norm_num [Dec.val, pairBasic]

/-- C4 as amended: on a registered pair whose `amount_in` parses to an
integer and whose oracle call succeeds, the session rejects with
`REJECT_REASON_INSUFFICIENT_LIQUIDITY` exactly when `amount_in` lies outside
the inclusive interval `[minOrderSize * 10^18, maxOrderSize * 10^18]` (when
the oracle call fails, the same reject is emitted even inside the
interval — see the counterexample). -/
theorem size_bounds_reject_iff (c : Connector) (sign : SignMsg → Option String)
    (d : QrData) (req : QuoteRequest) (pair : TradingPair) (n : Int) (mid : Dec)
    (hp : parseQuoteRequest d = some req)
    (hf : find_pair c req.token_in req.token_out = some pair)
    (ha : pyDecOfString req.amount_in = some ⟨n, 0⟩)
    (hm : midPriceOf c req.token_in req.token_out = some mid)
    (hminc : (pair.min_order_size.c * 10 ^ 18).natAbs < 10 ^ 28)
    (hmaxc : (pair.max_order_size.c * 10 ^ 18).natAbs < 10 ^ 28) :
    ((handle_quote_request c sign d).2 =
        [Frame.quoteReject req.quote_id RejectReason.insufficientLiquidity
          "Cannot provide quote"]) ↔
      ((n : ℚ) < pair.min_order_size.val * 10 ^ 18 ∨
        pair.max_order_size.val * 10 ^ 18 < (n : ℚ)) := by
  have hminv : (decMul pair.min_order_size decE18).val =
      pair.min_order_size.val * 10 ^ 18 := by
    rw [decMul_val _ _ (by simpa [decE18] using hminc), decE18_val]
  have hmaxv : (decMul pair.max_order_size decE18).val =
      pair.max_order_size.val * 10 ^ 18 := by
    rw [decMul_val _ _ (by simpa [decE18] using hmaxc), decE18_val]
  have hkey : calculate_quote c req pair = none ↔
      (decLt ⟨n, 0⟩ (decMul pair.min_order_size decE18) = true ∨
        decLt (decMul pair.max_order_size decE18) ⟨n, 0⟩ = true) := by
    unfold calculate_quote
    cases h1 : decLt ⟨n, 0⟩ (decMul pair.min_order_size decE18) with
    | true => simp [ha, h1]
    | false =>
      cases h2 : decLt (decMul pair.max_order_size decE18) ⟨n, 0⟩ with
      | true => simp [ha, h1, h2]
      | false => simp [ha, h1, h2, hm]
  have hhandle : ((handle_quote_request c sign d).2 =
      [Frame.quoteReject req.quote_id RejectReason.insufficientLiquidity
        "Cannot provide quote"]) ↔ calculate_quote c req pair = none := by
    unfold handle_quote_request
    cases hc : calculate_quote c req pair with
    | none => simp [hp, hf, hc, send_reject]
    | some ao =>
      cases hs : send_quote_response c sign req ao with
      | ok f =>
        have hok := send_quote_response_ok c sign req ao f hs
        simp only [hp, hf, hc, hs]
        constructor
        · intro heq
          have hfda : f = Frame.quoteReject req.quote_id
              RejectReason.insufficientLiquidity "Cannot provide quote" := by
            simpa using heq
          rw [hfda] at hok
          simp [isQuoteResponseFrame] at hok
        · intro habs
          exact absurd habs (by simp)
      | error e =>
        simp [hp, hf, hc, hs, send_reject]
  rw [hhandle, hkey, decLt_iff, decLt_iff, Dec.val_mk_int, hminv, hmaxv]

/-- Witness for the amended C4: at an in-range request both sides of the
equivalence are false (the session responds rather than rejects). -/
theorem size_bounds_reject_iff_witness :
    parseQuoteRequest dW1 = some reqW1 ∧
    (((handle_quote_request connBasic sigOk dW1).2 =
        [Frame.quoteReject reqW1.quote_id RejectReason.insufficientLiquidity
          "Cannot provide quote"]) ↔
      (((30000000000000000 : ℤ) : ℚ) < pairBasic.min_order_size.val * 10 ^ 18 ∨
        pairBasic.max_order_size.val * 10 ^ 18 < ((30000000000000000 : ℤ) : ℚ))) :=
  ⟨by decide,
    size_bounds_reject_iff connBasic sigOk dW1 reqW1 pairBasic
      30000000000000000 ⟨10, -1⟩ (by decide) (by decide) (by decide) (by decide)
      (by decide) (by decide)⟩

/-- C6 counterexample: pair matching is not case-insensitive.  With the pair
registered under the mixed-case key `0xAb-0xCd`, a request that differs only
in the hex casing of `token_in` (`0xab`) finds no pair, although the claim
asserts it is matched. -/
theorem pair_lookup_case_sensitive :
    strLower "0xab" = strLower "0xAb" ∧ "0xab" ≠ "0xAb" ∧
    find_pair connX6 "0xAb" "0xCd" = some pairX6 ∧
    find_pair connX6 "0xab" "0xCd" = none := by
  refine ⟨by decide, by decide, by decide, by decide⟩

/-- C6 as amended: pair lookup first replaces any zero-address side with the
chain's wrapped native token, then matches the request's `(tokenIn, tokenOut)`
against registered keys in either direction under EXACT (case-sensitive)
string equality of the addresses: the forward key wins, and the reverse key
is consulted only when the forward key is absent. -/
theorem pair_lookup_exact_match (c : Connector) (tIn tOut A B : String)
    (p : TradingPair) (hA : normalizeZero c tIn = A)
    (hB : normalizeZero c tOut = B) :
    (lookupPair c.pairs (A ++ "-" ++ B) = some p →
      find_pair c tIn tOut = some p) ∧
    (lookupPair c.pairs (A ++ "-" ++ B) = none →
      lookupPair c.pairs (B ++ "-" ++ A) = some p →
      find_pair c tIn tOut = some p) := by
  unfold find_pair
  rw [hA, hB]
  constructor
  · intro h
    simp only [h]
  · intro h1 h2
    simp only [h1, h2]

/-- Witness for the amended C6: the zero address aliases WBNB on BSC and the
reverse-direction key matches. -/
theorem pair_lookup_exact_match_witness :
    normalizeZero connW6 ZERO_ADDRESS =
      "0xbb4CdB9CBd36B01bD1cBaEBF2De08d9173bc095c" ∧
    find_pair connW6 ZERO_ADDRESS "0xU" = some pairW6 :=
  ⟨by decide,
    (pair_lookup_exact_match connW6 ZERO_ADDRESS "0xU"
      "0xbb4CdB9CBd36B01bD1cBaEBF2De08d9173bc095c" "0xU" pairW6
      (by decide) (by decide)).2 (by decide) (by decide)⟩

/-- Doubling step of the supervisor backoff. -/
theorem backoff_doubling (k : Nat) :
    min (min (2 ^ k) 60 * 2) 60 = min (2 ^ (k + 1)) 60 := by
  rcases le_total (2 ^ k) 60 with h | h
  · rw [min_eq_left h, pow_succ]
  · have h2 : 60 ≤ 2 ^ (k + 1) := le_trans h (by rw [pow_succ]; omega)
    rw [min_eq_right h, min_eq_right h2, min_eq_right (by omega : (60 : Nat) ≤ 60 * 2)]

/-- Sleeps over a run of `m` consecutive transport-connect failures starting
with delay `min (2 ^ k) 60`. -/
theorem sleeps_replicate (m : Nat) : ∀ k : Nat,
    supervisor_sleeps (min (2 ^ k) 60)
        (List.replicate m AttemptOutcome.connectFail) =
      (List.range m).map (fun i => min (2 ^ (k + i)) 60) := by
  induction m with
  | zero => intro k; rfl
  | succ m ih =>
    intro k
    rw [List.replicate_succ, List.range_succ_eq_map]
    simp only [supervisor_sleeps, supervisor_step, List.map_cons, List.map_map]
    refine congrArg₂ List.cons (by rw [Nat.add_zero]) ?_
    rw [backoff_doubling k, ih (k + 1)]
    refine congrArg₂ List.map ?_ rfl
    funext i
    simp only [Function.comp_apply]
    rw [show k + 1 + i = k + Nat.succ i from by omega]

/-- C7 as amended: starting from the initial delay of 1 second, after `n`
consecutive failures of the transport connection itself the supervisor's
`i`-th sleep (0-based) is `min (2 ^ i, 60)` seconds — so the `n`-th sleep is
`min (2 ^ (n-1), 60)`; but the delay is reset to 1 second as soon as the
transport connects, BEFORE authentication, so any attempt that establishes
the transport and then fails (e.g. an auth failure, no LIVE transition)
sleeps exactly 1 second. -/
theorem backoff_schedule (n dl : Nat) (rest : List AttemptOutcome) :
    supervisor_sleeps 1 (List.replicate n AttemptOutcome.connectFail) =
      (List.range n).map (fun i => min (2 ^ i) 60) ∧
    (supervisor_sleeps dl (AttemptOutcome.postConnectFail :: rest)).head? =
      some 1 := by
  constructor
  · have h := sleeps_replicate n 0
    simpa using h
  · rfl

/-- C7 counterexample: two consecutive failed attempts with no intervening
LIVE transition, each of which connected the transport and then failed
during authentication — the second sleep is 1 second, not the
`min (2 ^ (2-1), 60) = 2` seconds the claim requires, because line 201
resets the delay on transport connection, not on the LIVE transition. -/
theorem reset_on_transport_connect :
    (supervisor_sleeps 1
      [AttemptOutcome.postConnectFail, AttemptOutcome.postConnectFail])[1]? =
        some 1 ∧
    (1 : Nat) ≠ min (2 ^ (2 - 1)) 60 := by decide

/-- C8 counterexample: a first inbound message that is a heartbeat (any
non-`auth_response` type) does NOT cause a fatal transition —
`_handle_connection_ack` falls through its `if` and returns, and the session
proceeds to start the depth, heartbeat and reader activities (LIVE). -/
theorem non_auth_first_message_goes_live :
    sessionGoesLive (some hbAck) = true ∧
    hbAck.type = some "heartbeat" ∧
    hbAck.type ≠ some "auth_response" := by decide

/-- C8 as amended: after connecting, the session enters LIVE (starts the
depth, heartbeat and reader activities) if and only if the first inbound
message parses as JSON and is not an `auth_response` with falsy `success`:
an `auth_response` with `success=true` authenticates, an `auth_response`
with falsy `success` is fatal, an unparseable first message is fatal, and a
first message of any other type is silently ignored — the session still
enters LIVE unauthenticated. -/
theorem live_iff_ack_not_failed (raw : Option AckData) :
    sessionGoesLive raw = true ↔
      ∃ a, raw = some a ∧
        (a.type = some "auth_response" → a.success = some true) := by
  cases raw with
  | none => simp [sessionGoesLive, handle_connection_ack, exceptOk]
  | some a =>
    by_cases ht : a.type = some "auth_response"
    · cases hs : a.success with
      | none => simp [sessionGoesLive, handle_connection_ack, exceptOk, ht, hs]
      | some b =>
        cases b with
        | true => simp [sessionGoesLive, handle_connection_ack, exceptOk, ht, hs]
        | false => simp [sessionGoesLive, handle_connection_ack, exceptOk, ht, hs]
    · simp [sessionGoesLive, handle_connection_ack, exceptOk, ht]

/-- Each built snapshot carries the `sequence_id` it was built with. -/
theorem build_depth_snapshot_seq (c : Connector) (p : TradingPair) (s : Nat)
    (f : Frame) (h : build_depth_snapshot c p s = some f) :
    frameSeqId f = some s := by
  unfold build_depth_snapshot at h
  split at h
  · exact absurd h (by simp)
  · cases h
    rfl

/-- One depth pass emits snapshots with consecutive `sequence_id`s starting
at the current counter, and leaves the counter advanced by the number of
snapshots emitted. -/
theorem depth_round_seq (c : Connector) (ps : List (String × TradingPair)) :
    ∀ (m : Metrics) (s : Nat),
      depthSeqIds (depth_push_round c ps m s).2.2 =
        List.range' s (depth_push_round c ps m s).2.2.length ∧
      (depth_push_round c ps m s).2.1 =
        s + (depth_push_round c ps m s).2.2.length := by
  induction ps with
  | nil => intro m s; exact ⟨rfl, rfl⟩
  | cons hd tl ih =>
    intro m s
    obtain ⟨k, p⟩ := hd
    unfold depth_push_round
    cases hb : build_depth_snapshot c p s with
    | none => exact ⟨rfl, rfl⟩
    | some f =>
      have hseq := build_depth_snapshot_seq c p s f hb
      obtain ⟨ih1, ih2⟩ :=
        ih { m with depth_pushes := m.depth_pushes + 1 } (s + 1)
      constructor
      · simp only [depthSeqIds, List.filterMap_cons, hseq, List.length_cons,
          List.range'_succ]
        rw [← depthSeqIds.eq_1, ih1]
      · simp only [List.length_cons, ih2]
        omega

/-- Iterated depth passes emit snapshots with consecutive `sequence_id`s
starting at the current counter. -/
theorem depth_rounds_seq (c : Connector) (n : Nat) :
    ∀ (m : Metrics) (s : Nat),
      depthSeqIds (depth_push_rounds c m s n).2.2 =
        List.range' s (depth_push_rounds c m s n).2.2.length ∧
      (depth_push_rounds c m s n).2.1 =
        s + (depth_push_rounds c m s n).2.2.length := by
  induction n with
  | zero => intro m s; exact ⟨rfl, rfl⟩
  | succ n ih =>
    intro m s
    unfold depth_push_rounds
    dsimp only
    obtain ⟨r1, r2⟩ := depth_round_seq c c.pairs m s
    obtain ⟨i1, i2⟩ := ih (depth_push_round c c.pairs m s).1
      (depth_push_round c c.pairs m s).2.1
    rw [r2] at i1 i2 ⊢
    constructor
    · simp only [depthSeqIds, List.filterMap_append, List.length_append]
      rw [← depthSeqIds.eq_1, ← depthSeqIds.eq_1, r1, i1]
      rw [Nat.add_comm ((depth_push_round c c.pairs m s).2.2.length)]
      simp
    · simp only [List.length_append]
      omega

/-- C9: within one session the depth loop stamps its published snapshots
with the `sequence_id`s `0, 1, 2, …` in order — one shared counter across
all pairs, each published snapshot taking the next value, so consecutive
pushes differ by exactly 1; the counter is local to `_depth_push_loop` and
therefore restarts at 0 for the new session after a reconnect. -/
theorem depth_sequence_ids_consecutive (c : Connector) (rounds : Nat) :
    depthSeqIds (depth_push_loop c rounds).2.2 =
      List.range (depth_push_loop c rounds).2.2.length := by
  unfold depth_push_loop
  rw [(depth_rounds_seq c rounds c.metrics 0).1, List.range_eq_range']

/-- The handler updates the metrics in exactly one of two ways: received and
rejected both bumped, or received and responded both bumped. -/
theorem handle_quote_request_metrics (c : Connector)
    (sign : SignMsg → Option String) (d : QrData) :
    (handle_quote_request c sign d).1 =
      { c.metrics with
          quotes_received := c.metrics.quotes_received + 1
          quotes_rejected := c.metrics.quotes_rejected + 1 } ∨
    (handle_quote_request c sign d).1 =
      { c.metrics with
          quotes_received := c.metrics.quotes_received + 1
          quotes_responded := c.metrics.quotes_responded + 1 } := by
  unfold handle_quote_request send_reject
  cases parseQuoteRequest d with
  | none => exact Or.inl rfl
  | some req =>
    dsimp only
    cases find_pair c req.token_in req.token_out with
    | none => exact Or.inl rfl
    | some pair =>
      dsimp only
      cases calculate_quote c req pair with
      | none => exact Or.inl rfl
      | some ao =>
        dsimp only
        cases send_quote_response c sign req ao with
        | ok f => exact Or.inr rfl
        | error e => exact Or.inl rfl

/-- One depth pass only increases the metrics. -/
theorem depth_round_metrics_le (c : Connector)
    (ps : List (String × TradingPair)) : ∀ (m : Metrics) (s : Nat),
    m.le (depth_push_round c ps m s).1 := by
  induction ps with
  | nil => intro m s; exact Metrics.le_refl m
  | cons hd tl ih =>
    intro m s
    obtain ⟨k, p⟩ := hd
    unfold depth_push_round
    cases build_depth_snapshot c p s with
    | none => exact Metrics.le_refl m
    | some f =>
      refine Metrics.le_trans ?_ (ih _ _)
      unfold Metrics.le
      refine ⟨le_refl _, le_refl _, le_refl _, ?_, le_refl _⟩
      simp

/-- Iterated depth passes only increase the metrics. -/
theorem depth_rounds_metrics_le (c : Connector) (n : Nat) :
    ∀ (m : Metrics) (s : Nat), m.le (depth_push_rounds c m s n).1 := by
  induction n with
  | zero => intro m s; exact Metrics.le_refl m
  | succ n ih =>
    intro m s
    unfold depth_push_rounds
    dsimp only
    exact Metrics.le_trans (depth_round_metrics_le c c.pairs m s) (ih _ _)

/-- C10: after each fully handled `quote_request` (sends assumed not to
raise), the metrics satisfy
`quotes_received = quotes_responded + quotes_rejected` provided the balance
held before, and every counter is monotone non-decreasing under each
metrics-touching operation of the connector (`_handle_quote_request`, the
depth pass loop, and the supervisor's reconnection bump). -/
theorem metrics_balance_and_monotone (c : Connector)
    (sign : SignMsg → Option String) (d : QrData) (m : Metrics)
    (s rounds : Nat)
    (hbal : c.metrics.quotes_received =
      c.metrics.quotes_responded + c.metrics.quotes_rejected) :
    ((handle_quote_request c sign d).1.quotes_received =
      (handle_quote_request c sign d).1.quotes_responded +
        (handle_quote_request c sign d).1.quotes_rejected) ∧
    c.metrics.le (handle_quote_request c sign d).1 ∧
    m.le (depth_push_rounds c m s rounds).1 ∧
    m.le (bump_reconnections m) := by
  refine ⟨?_, ?_, depth_rounds_metrics_le c rounds m s, ?_⟩
  · rcases handle_quote_request_metrics c sign d with h | h <;> rw [h] <;>
      simp <;> omega
  · rcases handle_quote_request_metrics c sign d with h | h <;> rw [h] <;>
      unfold Metrics.le <;> simp
  · unfold Metrics.le bump_reconnections
    simp

/-- Witness for C10 at a concrete request from the zero metrics state. -/
theorem metrics_balance_and_monotone_witness :
    (connBasic.metrics.quotes_received =
      connBasic.metrics.quotes_responded + connBasic.metrics.quotes_rejected) ∧
    (((handle_quote_request connBasic sigOk dW1).1.quotes_received =
      (handle_quote_request connBasic sigOk dW1).1.quotes_responded +
        (handle_quote_request connBasic sigOk dW1).1.quotes_rejected) ∧
    connBasic.metrics.le (handle_quote_request connBasic sigOk dW1).1 ∧
    connBasic.metrics.le
      (depth_push_rounds connBasic connBasic.metrics 0 2).1 ∧
    connBasic.metrics.le (bump_reconnections connBasic.metrics)) :=
  ⟨by decide,
    metrics_balance_and_monotone connBasic sigOk dW1 connBasic.metrics 0 2
      (by decide)⟩

/-- C3 counterexample: for the 29-digit `amountIn = 10^28 + 6` (in range),
mid price `1.0` and `spreadBps = 30`, the exact floor is
`…005` but the code computes `…010`: `Decimal`'s 28-significant-digit
context rounds `amount_in * mid_price` (30 digits) and the subsequent spread
product half-to-even, overshooting the exact value. -/
theorem quote_output_not_exact_floor :
    pyDecOfString reqX3.amount_in = some ⟨10 ^ 28 + 6, 0⟩ ∧
    midPriceOf connX3 reqX3.token_in reqX3.token_out = some ⟨10, -1⟩ ∧
    selectSpread connX3 reqX3 pairX3 = 30 ∧
    calculate_quote connX3 reqX3 pairX3 = some 9970000000000000000000000010 ∧
    specAmountOut (10 ^ 28 + 6) 1 30 = 9970000000000000000000000005 ∧
    (9970000000000000000000000010 : ℤ) ≠ 9970000000000000000000000005 := by
  refine ⟨by decide, by decide, by decide, by decide, ?_, by decide⟩
  norm_num [specAmountOut]

/-- C3 as amended: the computed output equals
`floor(amountIn * midPrice * (1 - spreadBps/10000))` — with `spreadBps`
selected as `bidSpreadBps` iff the zero-normalised `tokenIn` equals
`pair.baseToken` case-insensitively — whenever the intermediate `Decimal`
products stay within the context's 28 significant digits (hypotheses `h1`
and `h2`); beyond 28 digits the half-even context rounding applies and the
result can differ from the exact floor (see the counterexample).  In
particular the S1 instance `amountIn = 10^18`, `midPrice = 600`,
`spreadBps = 30` yields `598200000000000000000` (witness). -/
theorem quote_output_floor_within_precision (c : Connector)
    (req : QuoteRequest) (pair : TradingPair) (n s : Int) (mid sf : Dec)
    (ha : pyDecOfString req.amount_in = some ⟨n, 0⟩)
    (hn : 0 ≤ n)
    (hmin : decLt ⟨n, 0⟩ (decMul pair.min_order_size decE18) = false)
    (hmax : decLt (decMul pair.max_order_size decE18) ⟨n, 0⟩ = false)
    (hm : midPriceOf c req.token_in req.token_out = some mid)
    (hmc : 0 ≤ mid.c)
    (hs : selectSpread c req pair = s)
    (hsf : spreadFactor s = sf)
    (hsfeq : sf.c * 10 ^ (4 + sf.e).toNat = 10 ^ 4 - s)
    (hsfe : -4 ≤ sf.e)
    (hsr : 0 ≤ s ∧ s ≤ 10 ^ 4)
    (h1 : (n * mid.c).natAbs < 10 ^ 28)
    (h2 : (n * mid.c).natAbs * 10 ^ 4 < 10 ^ 28) :
    calculate_quote c req pair = some (specAmountOut n mid.val s) := by
  have h10 : (10 : ℚ) ≠ 0 := by norm_num
  have hpk : (0 : ℤ) < 10 ^ (4 + sf.e).toNat :=
    pow_pos (by norm_num) _
  have hsfc_nonneg : 0 ≤ sf.c := by
    rcases le_or_lt 0 sf.c with h | h
    · exact h
    · exfalso
      nlinarith [hsfeq, hsr.2, hpk]
  have hsfc_le : sf.c.natAbs ≤ 10 ^ 4 := by
    have hc1 : sf.c ≤ sf.c * 10 ^ (4 + sf.e).toNat :=
      le_mul_of_one_le_right hsfc_nonneg (by omega)
    have hc2 : sf.c ≤ 10 ^ 4 := by omega
    omega
  have hsfval : sf.val = 1 - (s : ℚ) / 10 ^ 4 :=
    val_of_scaled_eq sf s hsfeq hsfe
  have hP1 : decMul ⟨n, 0⟩ mid = ⟨n * mid.c, mid.e⟩ := by
    unfold decMul
    have hr := round28_id ⟨n * mid.c, (0 : ℤ) + mid.e⟩ (by simpa using h1)
    simpa using hr
  have hP2 : decMul ⟨n * mid.c, mid.e⟩ sf = ⟨n * mid.c * sf.c, mid.e + sf.e⟩ := by
    unfold decMul
    refine round28_id ⟨n * mid.c * sf.c, mid.e + sf.e⟩ ?_
    calc (n * mid.c * sf.c).natAbs = (n * mid.c).natAbs * sf.c.natAbs :=
        Int.natAbs_mul _ _
      _ ≤ (n * mid.c).natAbs * 10 ^ 4 := Nat.mul_le_mul_left _ hsfc_le
      _ < 10 ^ 28 := h2
  have hCnn : 0 ≤ n * mid.c * sf.c :=
    mul_nonneg (mul_nonneg hn hmc) hsfc_nonneg
  unfold calculate_quote
  rw [ha]
  simp only [hmin, hmax, hm, hs, hsf, Bool.false_eq_true, if_false]
  rw [hP1, hP2, decToInt_eq_floor _ hCnn]
  unfold specAmountOut
  congr 1
  rw [show (10000 : ℚ) = 10 ^ 4 by norm_num, ← hsfval]
  unfold Dec.val
  push_cast
  rw [zpow_add₀ h10]
  ring_nf

/-- Witness for the amended C3: scenario S1 — `amountIn = 10^18`, oracle mid
`600`, bid spread 30 bps — yields `598200000000000000000`. -/
theorem quote_output_floor_within_precision_witness :
    calculate_quote connW3 reqW3 pairW3 = some 598200000000000000000 := by
  have h := quote_output_floor_within_precision connW3 reqW3 pairW3
    (10 ^ 18) 30 ⟨600, 0⟩ ⟨997, -3⟩ (by decide) (by decide) (by decide)
    (by decide) (by decide) (by decide) (by decide) (by decide) (by decide)
    (by decide) ⟨by decide, by decide⟩ (by decide) (by decide)
  rw [h]
  norm_num [specAmountOut, Dec.val]
